import Mathlib

/-!
Shallow embedding of the Redmine source connector
(`backend/airweave/platform/sources/redmine.py` and
`backend/airweave/platform/entities/redmine.py`).

The connector walks a Redmine REST API: it paginates over the project
listing, and for each project paginates over its issues, fetches each
issue's journals and attachments, and fetches the project's wiki pages.
Raw JSON records are mapped field by field into typed entity values that
carry "breadcrumb" lineage references to their parent entity.

Modelling conventions:
* Raw API records become Lean structures whose fields are `Option`-typed
  where the Python code uses `dict.get` (absent key = `none`).  Nested
  sub-objects from which the code only extracts a `name` (e.g. `author`,
  `tracker`) are modelled as that extracted `Option String` directly.
* Python string truthiness (`if s:`) is `s ≠ ""` on present strings.
* Each paginated listing response is a `ListingPage`: the record array
  plus the server-reported `total_count`.  A generator run is a function
  of the sequence of pages the server returns for its successive
  requests; an exhausted sequence behaves like a server that returns
  empty pages from then on.
* Network requests and log events are reified: every generator returns
  an `Emission` holding the entities it yields, the requests it issued,
  and the log events it recorded, in order.  Request lists are faithful
  as sets; the lazy interleaving of page fetches with sub-resource
  fetches is abstracted (entity order is unaffected by it).
* Python f-string decimal rendering of integers is `natStr`.
* Fallible HTTP fetches are `Except` values supplied by a `Server`
  oracle; `Except.error` models a raised exception at that call site.
* Float-valued pass-through fields (`estimated_hours`, `spent_hours`)
  are modelled as opaque integers: the connector performs no arithmetic
  on them, it only copies them.
-/

/-- Decimal rendering of a natural number, one character per digit, most
significant digit first — the formatting used by Python f-strings such as
`f"issue-{id}"`. -/
def natStr (n : Nat) : String :=
  if n = 0 then "0"
  else String.mk (((Nat.digits 10 n).map (fun d => Char.ofNat (48 + d))).reverse)

/-- Left inverse of `natStr`: parse the decimal digits back. -/
def natStrInv (s : String) : Nat :=
  Nat.ofDigits 10 ((s.data.map (fun c => c.toNat - 48)).reverse)

theorem digitChar_roundtrip : ∀ d, d < 10 → (Char.ofNat (48 + d)).toNat = 48 + d := by
  decide

theorem natStrInv_natStr (n : Nat) : natStrInv (natStr n) = n := by
  unfold natStr natStrInv
  by_cases h : n = 0
  · subst h; decide
  · simp only [h, if_false]
    show Nat.ofDigits 10
        ((((Nat.digits 10 n).map (fun d => Char.ofNat (48 + d))).reverse.map
          (fun c => c.toNat - 48)).reverse) = n
    rw [List.map_reverse, List.reverse_reverse, List.map_map]
    have hmap :
        (Nat.digits 10 n).map ((fun c => c.toNat - 48) ∘ (fun d => Char.ofNat (48 + d)))
          = (Nat.digits 10 n).map id := by
      apply List.map_congr_left
      intro d hd
      have hlt : d < 10 := Nat.digits_lt_base (by norm_num) hd
      simp [Function.comp, digitChar_roundtrip d hlt]
    rw [hmap, List.map_id]
    exact Nat.ofDigits_digits 10 n

theorem natStr_injective : Function.Injective natStr := by
  intro m n h
  have := congrArg natStrInv h
  rwa [natStrInv_natStr, natStrInv_natStr] at this

/-- Python truthiness of an optional string value: a missing key and the
empty string are falsy. -/
def optStrTruthy : Option String → Bool
  | none => false
  | some s => s ≠ ""

/-- Python `a or b` for an optional string `a` with fallback `b`. -/
def pyOrStr (a : Option String) (b : String) : String :=
  match a with
  | none => b
  | some s => if s = "" then b else s

/-- Python `str.lower()`, character by character (the identifiers the
connector lowercases are ASCII project slugs). -/
def strLower (s : String) : String := String.mk (s.data.map Char.toLower)

/-- A breadcrumb: lineage reference to an ancestor entity
(`airweave.platform.entities._base.Breadcrumb`). -/
structure Breadcrumb where
  entityId : String
  name : String
  entityType : String
deriving DecidableEq

/-! ### Raw API records (the JSON fields the connector reads) -/

/-- A raw project record from `GET /projects.json`. -/
structure ProjectRecord where
  id : Nat
  identifier : String
  name : Option String := none
  description : Option String := none
  homepage : Option String := none
  isPublic : Option Bool := none
  /-- `project_data.get("parent")`, reduced to the parent id the code
  extracts from it (absent/falsy parent = `none`). -/
  parent : Option Nat := none
  status : Option Nat := none
  createdOn : Option String := none
  updatedOn : Option String := none
deriving DecidableEq

/-- A raw issue record from `GET /issues.json`.  Nested objects
(`project`, `tracker`, `status`, `priority`, `author`, `assigned_to`)
are modelled as the `name` the code extracts from each (`none` when the
key is absent or the value is not a dict). -/
structure IssueRecord where
  id : Nat
  subject : Option String := none
  description : Option String := none
  projectName : Option String := none
  trackerName : Option String := none
  statusName : Option String := none
  priorityName : Option String := none
  authorName : Option String := none
  assignedToName : Option String := none
  startDate : Option String := none
  dueDate : Option String := none
  doneRatio : Option Nat := none
  estimatedHours : Option Int := none
  spentHours : Option Int := none
  closedOn : Option String := none
  createdOn : Option String := none
  updatedOn : Option String := none
deriving DecidableEq

/-- A raw journal record embedded in `GET /issues/{id}.json?include=journals`. -/
structure JournalRecord where
  id : Nat
  notes : Option String := none
  /-- `journal_data.get("user")`, reduced to the extracted `name`. -/
  userName : Option String := none
  createdOn : Option String := none
deriving DecidableEq

/-- A raw attachment record embedded in `GET /issues/{id}.json?include=attachments`. -/
structure AttachmentRecord where
  id : Nat
  filename : Option String := none
  filesize : Option Nat := none
  contentType : Option String := none
  description : Option String := none
  contentUrl : Option String := none
  authorName : Option String := none
  createdOn : Option String := none
deriving DecidableEq

/-- One entry of a project wiki index (`GET /projects/{ident}/wiki/index.json`). -/
structure WikiIndexEntry where
  title : Option String := none
deriving DecidableEq

/-- A raw wiki page detail record (`GET /projects/{ident}/wiki/{title}.json`). -/
structure WikiRecord where
  title : Option String := none
  text : Option String := none
  version : Option Nat := none
  authorName : Option String := none
  comments : Option String := none
  createdOn : Option String := none
  updatedOn : Option String := none
deriving DecidableEq

/-! ### Typed entities (`airweave.platform.entities.redmine`) -/

/-- `RedmineProjectEntity`. -/
structure RedmineProjectEntity where
  entityId : String
  breadcrumbs : List Breadcrumb
  name : String
  createdAt : Option String
  updatedAt : Option String
  projectId : Nat
  identifier : String
  description : Option String
  homepage : Option String
  isPublic : Option Bool
  parentId : Option Nat
  status : Option Nat
deriving DecidableEq

/-- `RedmineIssueEntity`. -/
structure RedmineIssueEntity where
  entityId : String
  breadcrumbs : List Breadcrumb
  name : String
  createdAt : Option String
  updatedAt : Option String
  issueId : Nat
  subject : String
  description : Option String
  projectId : Nat
  projectName : Option String
  trackerName : Option String
  statusName : Option String
  priorityName : Option String
  assignedTo : Option String
  author : Option String
  startDate : Option String
  dueDate : Option String
  doneRatio : Option Nat
  estimatedHours : Option Int
  spentHours : Option Int
  closedOn : Option String
deriving DecidableEq

/-- `RedmineWikiPageEntity`. -/
structure RedmineWikiPageEntity where
  entityId : String
  breadcrumbs : List Breadcrumb
  name : String
  createdAt : Option String
  updatedAt : Option String
  title : String
  text : String
  version : Option Nat
  author : Option String
  comments : Option String
  projectId : Nat
  projectName : Option String
deriving DecidableEq

/-- `RedmineJournalEntity`. -/
structure RedmineJournalEntity where
  entityId : String
  breadcrumbs : List Breadcrumb
  name : String
  createdAt : Option String
  updatedAt : Option String
  journalId : Nat
  notes : String
  issueId : Nat
  author : Option String
deriving DecidableEq

/-- `RedmineAttachmentEntity`. -/
structure RedmineAttachmentEntity where
  entityId : String
  breadcrumbs : List Breadcrumb
  name : String
  createdAt : Option String
  updatedAt : Option String
  attachmentId : Nat
  filename : String
  filesize : Option Nat
  contentType : Option String
  description : Option String
  contentUrl : Option String
  author : Option String
  issueId : Option Nat
deriving DecidableEq

/-! ### Entity creation (`RedmineSource._create_*_entity`) -/

/-- `RedmineSource._create_project_entity`. -/
def createProjectEntity (p : ProjectRecord) : RedmineProjectEntity :=
  { entityId := "project-" ++ natStr p.id
    breadcrumbs := []
    name := pyOrStr p.name p.identifier
    createdAt := p.createdOn
    updatedAt := p.updatedOn
    projectId := p.id
    identifier := p.identifier
    description := p.description
    homepage := p.homepage
    isPublic := p.isPublic
    parentId := p.parent
    status := p.status }

/-- `RedmineSource._create_issue_entity`. -/
def createIssueEntity (i : IssueRecord) (project : RedmineProjectEntity) :
    RedmineIssueEntity :=
  { entityId := "issue-" ++ natStr i.id
    breadcrumbs :=
      [{ entityId := project.entityId
         name := project.name
         entityType := "RedmineProjectEntity" }]
    name := pyOrStr i.subject ("Issue #" ++ natStr i.id)
    createdAt := i.createdOn
    updatedAt := i.updatedOn
    issueId := i.id
    subject := i.subject.getD ""
    description := i.description
    projectId := project.projectId
    projectName := i.projectName
    trackerName := i.trackerName
    statusName := i.statusName
    priorityName := i.priorityName
    assignedTo := i.assignedToName
    author := i.authorName
    startDate := i.startDate
    dueDate := i.dueDate
    doneRatio := i.doneRatio
    estimatedHours := i.estimatedHours
    spentHours := i.spentHours
    closedOn := i.closedOn }

/-- `RedmineSource._create_wiki_page_entity`. -/
def createWikiPageEntity (w : WikiRecord) (projectId : Nat)
    (projectName : String) (projectEntityId : String) : RedmineWikiPageEntity :=
  { entityId := "wiki-" ++ natStr projectId ++ "-" ++ w.title.getD ""
    breadcrumbs :=
      [{ entityId := projectEntityId
         name := projectName
         entityType := "RedmineProjectEntity" }]
    name := w.title.getD ""
    createdAt := w.createdOn
    updatedAt := w.updatedOn
    title := w.title.getD ""
    text := w.text.getD ""
    version := w.version
    author := w.authorName
    comments := w.comments
    projectId := projectId
    projectName := projectName }

/-- `RedmineSource._create_journal_entity`. -/
def createJournalEntity (j : JournalRecord) (issueId : Nat)
    (issueEntityId : String) : RedmineJournalEntity :=
  let notes := j.notes.getD ""
  { entityId := "journal-" ++ natStr j.id
    breadcrumbs :=
      [{ entityId := issueEntityId
         name := "Issue #" ++ natStr issueId
         entityType := "RedmineIssueEntity" }]
    name :=
      if notes ≠ "" then
        (if notes.length > 50 then notes.take 50 ++ "..." else notes)
      else "Change log entry"
    createdAt := j.createdOn
    updatedAt := none
    journalId := j.id
    notes := notes
    issueId := issueId
    author := j.userName }

/-- `RedmineSource._create_attachment_entity`. -/
def createAttachmentEntity (a : AttachmentRecord) (issueId : Nat)
    (issueEntityId : String) : RedmineAttachmentEntity :=
  { entityId := "attachment-" ++ natStr a.id
    breadcrumbs :=
      [{ entityId := issueEntityId
         name := "Issue #" ++ natStr issueId
         entityType := "RedmineIssueEntity" }]
    name := a.filename.getD ""
    createdAt := a.createdOn
    updatedAt := none
    attachmentId := a.id
    filename := a.filename.getD ""
    filesize := a.filesize
    contentType := a.contentType
    description := a.description
    contentUrl := a.contentUrl
    author := a.authorName
    issueId := some issueId }

/-! ### Configuration, requests, log events -/

/-- The configuration options `RedmineSource` reads from its config dict,
with the source's defaults.  A `None`/missing `project_identifiers` and
an empty list are both falsy in Python, so both are the empty list here. -/
structure RedmineConfig where
  projectIdentifiers : List String := []
  includeClosedIssues : Bool := false
  includeAttachments : Bool := false
  includeWikiPages : Bool := true
deriving DecidableEq

/-- The `status_id` query value sent to the issue listing endpoint. -/
def statusFilter (cfg : RedmineConfig) : String :=
  if cfg.includeClosedIssues then "*" else "open"

/-- One network request issued by the connector, identified by endpoint
and query parameters. -/
inductive Request where
  | listProjects (offset limit : Nat)
  | listIssues (projectId : Nat) (status : String) (offset limit : Nat)
  | issueJournals (issueId : Nat)
  | issueAttachments (issueId : Nat)
  | wikiIndex (projectIdentifier : String)
  | wikiPage (projectIdentifier : String) (title : String)
deriving DecidableEq

/-- `true` exactly on requests to a wiki endpoint. -/
def Request.isWikiCall : Request → Bool
  | .wikiIndex _ => true
  | .wikiPage _ _ => true
  | _ => false

/-- `true` exactly on requests to the attachment-enrichment endpoint. -/
def Request.isAttachmentCall : Request → Bool
  | .issueAttachments _ => true
  | _ => false

/-- The log events the generators record (only the decision-relevant
ones; routine debug lines are omitted). -/
inductive LogEvent where
  /-- warning: some requested project identifiers were not found. -/
  | projMissingIdentifiers (identifiers : List String)
  /-- error: a project filter was configured and matched no project. -/
  | projNoMatchError (requested : List String)
  /-- info: project sync finished with a filter configured. -/
  | projCompletedWithFilter (matched filteredOut : Nat)
  /-- info: project sync finished with no filter configured. -/
  | projCompletedNoFilter (matched : Nat)
  /-- warning: fetching journals for one issue failed. -/
  | journalFetchWarning (issueId : Nat)
  /-- warning: fetching attachments for one issue failed. -/
  | attachmentFetchWarning (issueId : Nat)
  /-- info: the project has no wiki (404 on the wiki index). -/
  | wikiNoWikiInfo (projectIdentifier : String)
  /-- warning: fetching the wiki index failed (non-404). -/
  | wikiIndexWarning (projectIdentifier : String)
  /-- warning: fetching one wiki page failed. -/
  | wikiPageWarning (projectIdentifier title : String)
deriving DecidableEq

/-- What a generator run produces: the entities it yields, the requests
it issues and the log events it records. -/
structure Emission (α : Type) where
  entities : List α
  requests : List Request
  logs : List LogEvent
deriving DecidableEq

/-- One paginated listing response: the record array (under the resource
key) and the server-reported `total_count`. -/
structure ListingPage (α : Type) where
  records : List α
  totalCount : Nat
deriving DecidableEq

/-- The failure modes of the wiki index fetch the code distinguishes. -/
inductive WikiFetchErr where
  /-- `httpx.HTTPStatusError` with status 404. -/
  | notFound404
  /-- `httpx.HTTPStatusError` with another status. -/
  | httpOther (status : Nat)
  /-- any other raised exception. -/
  | otherExn
deriving DecidableEq

/-! ### Paginated generators -/

/-- One record step of the project loop body: bump `total_projects`,
apply the (lowered) filter, track found identifiers, yield the entity
when it passes.  The accumulator is
`(entities, total_projects, filtered_projects, found_identifiers)`. -/
def projRecordStep (fset : Option (List String))
    (acc : List RedmineProjectEntity × Nat × Nat × List String)
    (r : ProjectRecord) : List RedmineProjectEntity × Nat × Nat × List String :=
  let (es, tot, filt, fnd) := acc
  let ident := strLower r.identifier
  match fset with
  | some s =>
    if ident ∉ s then (es, tot + 1, filt + 1, fnd)
    else (es ++ [createProjectEntity r], tot + 1, filt,
          if ident ∈ fnd then fnd else fnd ++ [ident])
  | none => (es ++ [createProjectEntity r], tot + 1, filt, fnd)

/-- The summary the project loop logs when it stops: a warning listing
requested-but-missing identifiers, then either the zero-match error or
the completion info line. -/
def projSummary (fset : Option (List String)) (requested : List String)
    (tot filt : Nat) (fnd : List String) : List LogEvent :=
  let matched := tot - filt
  match fset with
  | some s =>
    let missing := s.filter (· ∉ fnd)
    (if missing.isEmpty then [] else [LogEvent.projMissingIdentifiers missing]) ++
      (if matched = 0 then [LogEvent.projNoMatchError requested]
       else [LogEvent.projCompletedWithFilter matched filt])
  | none => [LogEvent.projCompletedNoFilter matched]

/-- Loop body of `RedmineSource._generate_project_entities`.

State threaded across pages exactly as in the source: the request
`offset`, the `total_projects` and `filtered_projects` counters and the
`found_identifiers` set (as a list).  `fset` is the lowered filter set
(`none` when no filter is configured, since both `None` and `[]` are
falsy); `requested` is the original filter list used in log messages.
An exhausted page list behaves like a server that answers with an empty
page, which triggers the loop's `len == 0` stop condition. -/
def projGenLoop (fset : Option (List String)) (requested : List String) :
    List (ListingPage ProjectRecord) → Nat → Nat → Nat → List String →
    Emission RedmineProjectEntity
  | [], offset, totalProjects, filteredProjects, found =>
    { entities := []
      requests := [Request.listProjects offset 100]
      logs := projSummary fset requested totalProjects filteredProjects found }
  | page :: rest, offset, totalProjects, filteredProjects, found =>
    let req := Request.listProjects offset 100
    let step := page.records.foldl (projRecordStep fset)
      ([], totalProjects, filteredProjects, found)
    let es := step.1
    let tot := step.2.1
    let filt := step.2.2.1
    let fnd := step.2.2.2
    if offset + page.records.length ≥ page.totalCount ∨ page.records.length = 0 then
      { entities := es, requests := [req]
        logs := projSummary fset requested tot filt fnd }
    else
      let restOut := projGenLoop fset requested rest (offset + 100) tot filt fnd
      { entities := es ++ restOut.entities
        requests := req :: restOut.requests
        logs := restOut.logs }

/-- `RedmineSource._generate_project_entities`, as a function of the
successive listing responses the server returns. -/
def generateProjectEntities (cfg : RedmineConfig)
    (pages : List (ListingPage ProjectRecord)) : Emission RedmineProjectEntity :=
  let fset : Option (List String) :=
    if cfg.projectIdentifiers.isEmpty then none
    else some (cfg.projectIdentifiers.map strLower)
  projGenLoop fset cfg.projectIdentifiers pages 0 0 0 []

/-- Loop of `RedmineSource._generate_issue_entities`: paginate over the
issue listing of one project, mapping every returned record to an
entity.  Same page-sequence semantics as `projGenLoop`. -/
def issueGenLoop (cfg : RedmineConfig) (project : RedmineProjectEntity) :
    List (ListingPage IssueRecord) → Nat → Emission RedmineIssueEntity
  | [], offset =>
    { entities := []
      requests := [Request.listIssues project.projectId (statusFilter cfg) offset 100]
      logs := [] }
  | page :: rest, offset =>
    let req := Request.listIssues project.projectId (statusFilter cfg) offset 100
    let es := page.records.map (fun r => createIssueEntity r project)
    if offset + page.records.length ≥ page.totalCount ∨ page.records.length = 0 then
      { entities := es, requests := [req], logs := [] }
    else
      let restOut := issueGenLoop cfg project rest (offset + 100)
      { entities := es ++ restOut.entities
        requests := req :: restOut.requests
        logs := restOut.logs }

/-- `RedmineSource._generate_issue_entities`. -/
def generateIssueEntities (cfg : RedmineConfig) (project : RedmineProjectEntity)
    (pages : List (ListingPage IssueRecord)) : Emission RedmineIssueEntity :=
  issueGenLoop cfg project pages 0

/-- `RedmineSource._generate_journal_entities`: one detail fetch for the
issue (`include=journals`); on success, journals whose `notes` are
missing or empty are skipped and the rest become entities; any raised
exception is caught and logged as a warning, yielding nothing. -/
def generateJournalEntities (issue : RedmineIssueEntity)
    (fetched : Except Unit (List JournalRecord)) : Emission RedmineJournalEntity :=
  let req := Request.issueJournals issue.issueId
  match fetched with
  | .ok journals =>
    { entities :=
        (journals.filter (fun j => optStrTruthy j.notes)).map
          (fun j => createJournalEntity j issue.issueId issue.entityId)
      requests := [req]
      logs := [] }
  | .error _ =>
    { entities := [], requests := [req]
      logs := [LogEvent.journalFetchWarning issue.issueId] }

/-- `RedmineSource._generate_attachment_entities`: returns before any
request when `include_attachments` is off; otherwise one detail fetch
(`include=attachments`), every returned record becomes an entity, and
any raised exception is caught and logged as a warning. -/
def generateAttachmentEntities (cfg : RedmineConfig)
    (issue : RedmineIssueEntity)
    (fetched : Except Unit (List AttachmentRecord)) : Emission RedmineAttachmentEntity :=
  if cfg.includeAttachments = false then
    { entities := [], requests := [], logs := [] }
  else
    let req := Request.issueAttachments issue.issueId
    match fetched with
    | .ok attachments =>
      { entities :=
          attachments.map (fun a => createAttachmentEntity a issue.issueId issue.entityId)
        requests := [req]
        logs := [] }
    | .error _ =>
      { entities := [], requests := [req]
        logs := [LogEvent.attachmentFetchWarning issue.issueId] }

/-- Inner loop of `RedmineSource._generate_wiki_page_entities` over the
wiki index entries: entries with a missing or empty `title` are skipped
without a detail fetch; each remaining title is fetched, a failed fetch
is logged as a warning and skipped, a successful one yields an entity
built from the detail record. -/
def wikiEntriesLoop (projectIdentifier : String) (projectId : Nat)
    (projectName projectEntityId : String)
    (detail : String → Except Unit WikiRecord) :
    List WikiIndexEntry → Emission RedmineWikiPageEntity
  | [] => { entities := [], requests := [], logs := [] }
  | e :: rest =>
    let r := wikiEntriesLoop projectIdentifier projectId projectName projectEntityId
      detail rest
    if optStrTruthy e.title then
      let t := e.title.getD ""
      match detail t with
      | .ok w =>
        { entities :=
            createWikiPageEntity w projectId projectName projectEntityId :: r.entities
          requests := Request.wikiPage projectIdentifier t :: r.requests
          logs := r.logs }
      | .error _ =>
        { entities := r.entities
          requests := Request.wikiPage projectIdentifier t :: r.requests
          logs := LogEvent.wikiPageWarning projectIdentifier t :: r.logs }
    else r

/-- `RedmineSource._generate_wiki_page_entities`: returns before any
request when `include_wiki_pages` is off; otherwise fetches the wiki
index (404 = project has no wiki, logged as info; other failures logged
as warnings) and then walks its entries. -/
def generateWikiPageEntities (cfg : RedmineConfig)
    (project : RedmineProjectEntity)
    (indexFetched : Except WikiFetchErr (List WikiIndexEntry))
    (detail : String → Except Unit WikiRecord) : Emission RedmineWikiPageEntity :=
  if cfg.includeWikiPages = false then
    { entities := [], requests := [], logs := [] }
  else
    let req := Request.wikiIndex project.identifier
    match indexFetched with
    | .ok entries =>
      let r := wikiEntriesLoop project.identifier project.projectId project.name
        project.entityId detail entries
      { entities := r.entities, requests := req :: r.requests, logs := r.logs }
    | .error .notFound404 =>
      { entities := [], requests := [req]
        logs := [LogEvent.wikiNoWikiInfo project.identifier] }
    | .error (.httpOther _) =>
      { entities := [], requests := [req]
        logs := [LogEvent.wikiIndexWarning project.identifier] }
    | .error .otherExn =>
      { entities := [], requests := [req]
        logs := [LogEvent.wikiIndexWarning project.identifier] }

/-! ### Validator (`RedmineSource.validate`) -/

/-- The outcome of the single `GET /users/current.json` request as
`validate` observes it.  `success` is an HTTP 2xx response whose parsed
body carries the value of the `"user"` key (`none` when absent); the
user object is modelled as its key/value pairs, since the only use the
code makes of it is Python truthiness (a present but empty dict is
falsy).  `httpStatusError` is a raised `httpx.HTTPStatusError` (4xx/5xx
after retries), `exn` any other raised exception. -/
inductive ValidateResponse where
  | success (user : Option (List (String × String)))
  | httpStatusError (status : Nat)
  | exn
deriving DecidableEq

/-- `RedmineSource.validate`: `True` only when the request succeeds and
the body has a truthy `"user"` value; every raised error is caught and
turned into `False`. -/
def validate : ValidateResponse → Bool
  | .success (some user) => if user.isEmpty then false else true
  | .success none => false
  | .httpStatusError _ => false
  | .exn => false

/-! ### Server oracle and full-run orchestrator -/

/-- Everything the third-party server would answer during one run:
the successive project listing pages, the successive issue listing pages
per project id, the enrichment fetch outcome per issue id, and the wiki
index/detail fetch outcomes per project identifier. -/
structure Server where
  projectPages : List (ListingPage ProjectRecord)
  issuePages : Nat → List (ListingPage IssueRecord)
  journalFetch : Nat → Except Unit (List JournalRecord)
  attachmentFetch : Nat → Except Unit (List AttachmentRecord)
  wikiIndexFetch : String → Except WikiFetchErr (List WikiIndexEntry)
  wikiPageFetch : String → String → Except Unit WikiRecord

/-- An element of the single heterogeneous entity stream
`generate_entities` yields. -/
inductive REntity where
  | project (e : RedmineProjectEntity)
  | issue (e : RedmineIssueEntity)
  | journal (e : RedmineJournalEntity)
  | attachment (e : RedmineAttachmentEntity)
  | wikiPage (e : RedmineWikiPageEntity)
deriving DecidableEq

/-- The base `entity_id` of a stream element. -/
def REntity.entityId : REntity → String
  | .project e => e.entityId
  | .issue e => e.entityId
  | .journal e => e.entityId
  | .attachment e => e.entityId
  | .wikiPage e => e.entityId

/-- The base `breadcrumbs` of a stream element. -/
def REntity.crumbs : REntity → List Breadcrumb
  | .project e => e.breadcrumbs
  | .issue e => e.breadcrumbs
  | .journal e => e.breadcrumbs
  | .attachment e => e.breadcrumbs
  | .wikiPage e => e.breadcrumbs

/-- The part of the run below one issue: the issue itself, then its
journal entities, then its attachment entities (`generate_entities`,
inner loop). -/
def issueSubtree (cfg : RedmineConfig) (s : Server)
    (i : RedmineIssueEntity) : Emission REntity :=
  let j := generateJournalEntities i (s.journalFetch i.issueId)
  let a := generateAttachmentEntities cfg i (s.attachmentFetch i.issueId)
  { entities := .issue i :: (j.entities.map .journal ++ a.entities.map .attachment)
    requests := j.requests ++ a.requests
    logs := j.logs ++ a.logs }

/-- The part of the run below one project: the project itself, then for
each of its issues that issue's subtree, then the project's wiki pages
(`generate_entities`, outer loop body). -/
def projectSubtree (cfg : RedmineConfig) (s : Server)
    (p : RedmineProjectEntity) : Emission REntity :=
  let ie := generateIssueEntities cfg p (s.issuePages p.projectId)
  let subtrees := ie.entities.map (issueSubtree cfg s)
  let w := generateWikiPageEntities cfg p (s.wikiIndexFetch p.identifier)
    (s.wikiPageFetch p.identifier)
  { entities :=
      .project p :: ((subtrees.map Emission.entities).flatten
        ++ w.entities.map .wikiPage)
    requests := ie.requests ++ (subtrees.map Emission.requests).flatten ++ w.requests
    logs := ie.logs ++ (subtrees.map Emission.logs).flatten ++ w.logs }

/-- `RedmineSource.generate_entities`: the full depth-first run. -/
def generateEntities (cfg : RedmineConfig) (s : Server) : Emission REntity :=
  let pe := generateProjectEntities cfg s.projectPages
  let subtrees := pe.entities.map (projectSubtree cfg s)
  { entities := (subtrees.map Emission.entities).flatten
    requests := pe.requests ++ (subtrees.map Emission.requests).flatten
    logs := pe.logs ++ (subtrees.map Emission.logs).flatten }

/-! ### Auxiliary specification-side notions -/

/-- The records a pagination loop of the source's shape actually
consumes, as a function of the successive listing responses: each page's
records are taken, and the loop stops after a page when
`offset + len(page) >= total_count` or the page was empty, advancing
`offset` by the fixed limit of 100 otherwise. -/
def fetchedRecords {α : Type} : List (ListingPage α) → Nat → List α
  | [], _ => []
  | page :: rest, offset =>
    page.records ++
      (if offset + page.records.length ≥ page.totalCount ∨ page.records.length = 0
       then [] else fetchedRecords rest (offset + 100))

/-- The response sequence of a well-behaved server holding the record
list `l`: successive slices of exactly 100 records (the last page takes
the remainder), each page reporting `total` as `total_count`. -/
def chunkPages {α : Type} (total : Nat) (l : List α) : List (ListingPage α) :=
  if l.isEmpty then []
  else { records := l.take 100, totalCount := total } :: chunkPages total (l.drop 100)
  termination_by l.length
  decreasing_by
    rename_i hne
    have hnil : l ≠ [] := by
      intro h
      subst h
      simp at hne
    have hpos : 0 < l.length := List.length_pos_of_ne_nil hnil
    simp only [List.length_drop]
    omega

/-- Does every breadcrumb of every entity in the stream point at the
`entity_id` of an entity yielded strictly earlier (or at one of the ids
in `avail`)? -/
def crumbsOk (avail : List String) : List REntity → Bool
  | [] => true
  | e :: rest =>
    e.crumbs.all (fun b => avail.contains b.entityId) &&
      crumbsOk (e.entityId :: avail) rest

/-! ### Sample data used by closed witnesses and counterexamples -/

/-- A minimal raw issue record with a given id. -/
def sampleIssue (n : Nat) : IssueRecord := { id := n }

/-- A minimal raw project record. -/
def sampleProjectRecord : ProjectRecord := { id := 1, identifier := "test-project" }

/-- A concrete parent project entity. -/
def sampleProject : RedmineProjectEntity := createProjectEntity sampleProjectRecord

/-- The all-defaults configuration. -/
def defaultConfig : RedmineConfig := {}

/-! ### C2 — validate() -/

/-- C2, counterexample: an HTTP 200 response from `/users/current.json`
whose body has no `"user"` key (and one whose `"user"` is an empty
object) makes `validate()` return `False`, so "returns exactly true when
the identity endpoint responds with HTTP 200" does not hold. -/
theorem validate_http200_without_user_cex :
    validate (ValidateResponse.success none) = false ∧
      validate (ValidateResponse.success (some [])) = false := by
  decide

/-- C2 (amended): `validate()` returns `true` exactly when the identity
endpoint responds with HTTP success and the body carries a non-empty
`user` object; it returns `false` on HTTP 401, on every other HTTP
status error, on any raised transport exception, and on a success
response without user data — and being `Bool`-valued it never yields a
third state or propagates an exception. -/
theorem validate_true_iff_user_present :
    ∀ r : ValidateResponse,
      (validate r = true ↔ ∃ user, r = ValidateResponse.success (some user) ∧ user ≠ []) ∧
      validate (ValidateResponse.httpStatusError 401) = false ∧
      (∀ status, validate (ValidateResponse.httpStatusError status) = false) ∧
      validate ValidateResponse.exn = false ∧
      (validate r = true ∨ validate r = false) := by
  intro r
  refine ⟨?_, rfl, fun _ => rfl, rfl, ?_⟩
  · constructor
    · intro h
      match r with
      | .success (some user) =>
        refine ⟨user, rfl, ?_⟩
        intro hnil
        subst hnil
        simp [validate] at h
      | .success none => simp [validate] at h
      | .httpStatusError status => simp [validate] at h
      | .exn => simp [validate] at h
    · rintro ⟨user, rfl, hne⟩
      simp [validate, List.isEmpty_iff, hne]
  · cases validate r
    · right; rfl
    · left; rfl

/-- C2, witness: the amended theorem applied at a success response with
a non-empty user object and at a concrete HTTP 500 error. -/
theorem validate_true_iff_user_present_witness :
    validate (ValidateResponse.success (some [("login", "admin")])) = true ∧
    validate (ValidateResponse.httpStatusError 500) = false :=
  ⟨((validate_true_iff_user_present
      (ValidateResponse.success (some [("login", "admin")]))).1).mpr
        ⟨[("login", "admin")], rfl, by decide⟩,
   (validate_true_iff_user_present
      (ValidateResponse.success none)).2.2.1 500⟩

/-! ### C8 — deterministic entity identifiers -/

/-- C8: issue entity identifiers depend only on the source issue id
(`issue-<id>`), so two derivations of the same id agree; and wiki page
entity identifiers (`wiki-<project-id>-<title>`) built from the same
title under different projects always differ. -/
theorem entity_id_derivation_deterministic :
    (∀ (d1 d2 : IssueRecord) (p1 p2 : RedmineProjectEntity), d1.id = d2.id →
        (createIssueEntity d1 p1).entityId = (createIssueEntity d2 p2).entityId) ∧
    (∀ (w1 w2 : WikiRecord) (pid1 pid2 : Nat) (n1 n2 e1 e2 : String),
        pid1 ≠ pid2 → w1.title = w2.title →
        (createWikiPageEntity w1 pid1 n1 e1).entityId ≠
          (createWikiPageEntity w2 pid2 n2 e2).entityId) := by
  constructor
  · intro d1 d2 p1 p2 hid
    simp [createIssueEntity, hid]
  · intro w1 w2 pid1 pid2 n1 n2 e1 e2 hpid htitle heq
    apply hpid
    apply natStr_injective
    apply String.ext
    simp only [createWikiPageEntity, htitle] at heq
    have hdata := congrArg String.data heq
    simp only [String.data_append] at hdata
    have h1 := List.append_cancel_right hdata
    have h2 := List.append_cancel_right h1
    exact List.append_cancel_left h2

/-- C8, witness: the theorem applied at issue id 5 under two different
parent projects, and at wiki title "Home" under project ids 1 and 2. -/
theorem entity_id_derivation_witness :
    ((sampleIssue 5).id = ({ id := 5, subject := some "A" } : IssueRecord).id ∧
      (createIssueEntity (sampleIssue 5) sampleProject).entityId =
        (createIssueEntity { id := 5, subject := some "A" }
          (createProjectEntity { id := 2, identifier := "other" })).entityId) ∧
    ((1 : Nat) ≠ 2 ∧
      (createWikiPageEntity { title := some "Home" } 1 "P1" "project-1").entityId ≠
        (createWikiPageEntity { title := some "Home" } 2 "P2" "project-2").entityId) :=
  ⟨⟨rfl,
    entity_id_derivation_deterministic.1 (sampleIssue 5) { id := 5, subject := some "A" }
      sampleProject (createProjectEntity { id := 2, identifier := "other" }) rfl⟩,
   ⟨by decide,
    entity_id_derivation_deterministic.2 { title := some "Home" } { title := some "Home" }
      1 2 "P1" "P2" "project-1" "project-2" (by decide) rfl⟩⟩

/-! ### C4 — journal note filtering and naming -/

/-- C4: a fetched journal appears in the output exactly when its `notes`
field is present and non-empty (journals that only track field changes
are skipped), and an emitted journal's entity name is the first 50
characters of the notes followed by "..." when the notes exceed 50
characters, else the full notes text. -/
theorem journal_notes_filter_and_name :
    ∀ (i : RedmineIssueEntity) (js : List JournalRecord),
      (∀ e, e ∈ (generateJournalEntities i (Except.ok js)).entities ↔
        ∃ j ∈ js, optStrTruthy j.notes = true ∧
          e = createJournalEntity j i.issueId i.entityId) ∧
      (∀ j : JournalRecord, optStrTruthy j.notes = true →
        (createJournalEntity j i.issueId i.entityId).name =
          (if (j.notes.getD "").length > 50
           then (j.notes.getD "").take 50 ++ "..."
           else j.notes.getD "")) := by
  intro i js
  constructor
  · intro e
    simp only [generateJournalEntities, List.mem_map, List.mem_filter]
    constructor
    · rintro ⟨j, ⟨hjs, htruthy⟩, rfl⟩
      exact ⟨j, hjs, htruthy, rfl⟩
    · rintro ⟨j, hjs, htruthy, rfl⟩
      exact ⟨j, ⟨hjs, htruthy⟩, rfl⟩
  · intro j htruthy
    match hnotes : j.notes with
    | none => rw [hnotes] at htruthy; simp [optStrTruthy] at htruthy
    | some s =>
      rw [hnotes] at htruthy
      have hs : s ≠ "" := by simpa [optStrTruthy] using htruthy
      simp [createJournalEntity, hnotes, hs]

/-- C4, witness: with one notes-free journal and one 2-character-notes
journal, only the latter is emitted, and its name is the full note. -/
theorem journal_notes_filter_and_name_witness :
    (¬ (RedmineJournalEntity.mk "journal-1" [] "Change log entry" none none 1 "" 7 none ∈
        (generateJournalEntities (createIssueEntity (sampleIssue 7) sampleProject)
          (Except.ok [{ id := 1 }])).entities)) ∧
    optStrTruthy (some "hi") = true ∧
    (createJournalEntity { id := 3, notes := some "hi" }
        (createIssueEntity (sampleIssue 7) sampleProject).issueId
        (createIssueEntity (sampleIssue 7) sampleProject).entityId).name =
      (if ("hi" : String).length > 50 then ("hi" : String).take 50 ++ "..." else "hi") := by
  refine ⟨?_, rfl, ?_⟩
  · intro hmem
    have h := ((journal_notes_filter_and_name
      (createIssueEntity (sampleIssue 7) sampleProject) [{ id := 1 }]).1 _).mp hmem
    rcases h with ⟨j, hjs, htruthy, _⟩
    simp at hjs
    subst hjs
    simp [optStrTruthy] at htruthy
  · exact (journal_notes_filter_and_name
      (createIssueEntity (sampleIssue 7) sampleProject) []).2
        { id := 3, notes := some "hi" } (by decide)

/-! ### C1 — pagination completeness -/

theorem issueGenLoop_entities_eq (cfg : RedmineConfig) (p : RedmineProjectEntity) :
    ∀ (pages : List (ListingPage IssueRecord)) (offset : Nat),
      (issueGenLoop cfg p pages offset).entities
        = (fetchedRecords pages offset).map (fun r => createIssueEntity r p) := by
  intro pages
  induction pages with
  | nil => intro offset; simp [issueGenLoop, fetchedRecords]
  | cons page rest ih =>
    intro offset
    by_cases h : page.totalCount ≤ offset + page.records.length ∨ page.records = []
    · simp [issueGenLoop, fetchedRecords, h]
    · simp [issueGenLoop, fetchedRecords, h, ih]

theorem projFold_none :
    ∀ (rs : List ProjectRecord) (es : List RedmineProjectEntity) (t f : Nat)
      (fnd : List String),
      rs.foldl (projRecordStep none) (es, t, f, fnd)
        = (es ++ rs.map createProjectEntity, t + rs.length, f, fnd) := by
  intro rs
  induction rs with
  | nil => intro es t f fnd; simp
  | cons r rs ih =>
    intro es t f fnd
    rw [List.foldl_cons]
    show rs.foldl (projRecordStep none)
        (es ++ [createProjectEntity r], t + 1, f, fnd) = _
    rw [ih]
    simp [List.append_assoc]
    omega

theorem projGenLoop_none_entities (requested : List String) :
    ∀ (pages : List (ListingPage ProjectRecord)) (offset t f : Nat)
      (fnd : List String),
      (projGenLoop none requested pages offset t f fnd).entities
        = (fetchedRecords pages offset).map createProjectEntity := by
  intro pages
  induction pages with
  | nil => intro offset t f fnd; simp [projGenLoop, fetchedRecords]
  | cons page rest ih =>
    intro offset t f fnd
    by_cases h : page.totalCount ≤ offset + page.records.length ∨ page.records = []
    · simp [projGenLoop, fetchedRecords, h, projFold_none]
    · simp [projGenLoop, fetchedRecords, h, projFold_none, ih]

theorem fetchedRecords_chunkPages {α : Type} :
    ∀ (n : Nat) (l : List α) (offset total : Nat), l.length = n →
      total = offset + l.length →
      fetchedRecords (chunkPages total l) offset = l := by
  intro n
  induction n using Nat.strong_induction_on with
  | _ n ih =>
    intro l offset total hn htot
    by_cases hl : l.isEmpty
    · rw [chunkPages.eq_def]
      simp only [hl, if_true]
      have : l = [] := List.isEmpty_iff.mp hl
      simp [fetchedRecords, this]
    · rw [chunkPages.eq_def]
      simp only [hl, if_false]
      have hlen : (l.take 100).length = min 100 l.length := by simp
      by_cases hle : l.length ≤ 100
      · have hcond : offset + (l.take 100).length ≥ total ∨ (l.take 100).length = 0 := by
          left
          rw [hlen, htot]
          omega
        simp only [fetchedRecords, hcond, if_pos]
        simp [List.take_of_length_le hle]
      · have hcond : ¬(offset + (l.take 100).length ≥ total ∨ (l.take 100).length = 0) := by
          rw [hlen]
          push_neg
          constructor
          · omega
          · omega
        simp only [fetchedRecords, hcond, if_neg, not_false_iff]
        have hdrop : (l.drop 100).length = l.length - 100 := by simp
        have hrec : fetchedRecords (chunkPages total (l.drop 100)) (offset + 100)
            = l.drop 100 := by
          apply ih (l.length - 100) (by omega) (l.drop 100) (offset + 100) total hdrop
          omega
        rw [hrec]
        exact List.take_append_drop 100 l

/-- The response sequence of a server that miscounts pages: 200 issue
records distributed over pages of 1, 100 and 99 records, every page
reporting `total_count = 200`. -/
def shortPages : List (ListingPage IssueRecord) :=
  [ { records := [sampleIssue 0], totalCount := 200 },
    { records := (List.range 100).map (fun n => sampleIssue (n + 1)), totalCount := 200 },
    { records := (List.range 99).map (fun n => sampleIssue (n + 101)), totalCount := 200 } ]

/-- C1, counterexample: a listing response sequence whose record counts
sum to the server-reported `total_count = 200` on which the issue loop
yields only 101 records, not 200 — the loop advances `offset` by the
fixed limit 100 rather than by the page size, so after the second page
`offset + len(page) = 200 ≥ total_count` and it stops early.  Hence the
fetchers do not yield all records "regardless of how many records the
server returns per page". -/
theorem pagination_short_pages_cex :
    (shortPages.map (fun p => p.records.length)).sum = 200 ∧
    shortPages.map ListingPage.totalCount = [200, 200, 200] ∧
    (generateIssueEntities defaultConfig sampleProject shortPages).entities.length = 101 := by
  refine ⟨by decide, by decide, ?_⟩
  decide

/-- C1 (amended): when the server distributes records across pages
following the offset/limit contract — every page before the last
carries exactly `limit = 100` records and each page reports the true
total — both paginated fetchers (`_generate_project_entities` with no
filter configured, and the issue loop of `_generate_issue_entities`)
yield exactly the N records, each exactly once and in order.  (The
as-stated claim, for arbitrary page distributions, is refuted by
`pagination_short_pages_cex`.) -/
theorem pagination_std_paging_complete :
    ∀ (cfg : RedmineConfig) (p : RedmineProjectEntity)
      (li : List IssueRecord) (lp : List ProjectRecord),
      cfg.projectIdentifiers = [] →
      (generateIssueEntities cfg p (chunkPages li.length li)).entities
        = li.map (fun r => createIssueEntity r p) ∧
      (generateProjectEntities cfg (chunkPages lp.length lp)).entities
        = lp.map createProjectEntity := by
  intro cfg p li lp hcfg
  constructor
  · rw [generateIssueEntities, issueGenLoop_entities_eq,
      fetchedRecords_chunkPages li.length li 0 li.length rfl (by omega)]
  · rw [generateProjectEntities]
    simp only [hcfg, List.isEmpty_nil, if_pos]
    rw [projGenLoop_none_entities,
      fetchedRecords_chunkPages lp.length lp 0 lp.length rfl (by omega)]

/-- C1, witness: the amended theorem applied to two issue records and
one project record served in standard pages. -/
theorem pagination_std_paging_complete_witness :
    defaultConfig.projectIdentifiers = [] ∧
    (generateIssueEntities defaultConfig sampleProject
        (chunkPages ([sampleIssue 1, sampleIssue 2].length)
          [sampleIssue 1, sampleIssue 2])).entities
      = [sampleIssue 1, sampleIssue 2].map (fun r => createIssueEntity r sampleProject) ∧
    (generateProjectEntities defaultConfig
        (chunkPages ([sampleProjectRecord].length) [sampleProjectRecord])).entities
      = [sampleProjectRecord].map createProjectEntity :=
  ⟨rfl,
   (pagination_std_paging_complete defaultConfig sampleProject
      [sampleIssue 1, sampleIssue 2] [sampleProjectRecord] rfl).1,
   (pagination_std_paging_complete defaultConfig sampleProject
      [sampleIssue 1, sampleIssue 2] [sampleProjectRecord] rfl).2⟩

/-! ### C3 — configured filter matching zero projects -/

theorem projFold_allskip (s : List String) :
    ∀ (rs : List ProjectRecord), (∀ r ∈ rs, strLower r.identifier ∉ s) →
      ∀ (es : List RedmineProjectEntity) (t f : Nat) (fnd : List String),
        rs.foldl (projRecordStep (some s)) (es, t, f, fnd)
          = (es, t + rs.length, f + rs.length, fnd) := by
  intro rs
  induction rs with
  | nil => intro _ es t f fnd; simp
  | cons r rs ih =>
    intro h es t f fnd
    have hr : strLower r.identifier ∉ s := h r (List.mem_cons_self r rs)
    rw [List.foldl_cons]
    show rs.foldl (projRecordStep (some s))
        (projRecordStep (some s) (es, t, f, fnd) r) = _
    rw [show projRecordStep (some s) (es, t, f, fnd) r = (es, t + 1, f + 1, fnd) by
      simp [projRecordStep, hr]]
    rw [ih (fun x hx => h x (List.mem_cons_of_mem r hx))]
    simp
    omega

theorem projGenLoop_allskip (s requested : List String) :
    ∀ (pages : List (ListingPage ProjectRecord)) (offset t f : Nat)
      (fnd : List String),
      (∀ page ∈ pages, ∀ r ∈ page.records, strLower r.identifier ∉ s) → t = f →
      (projGenLoop (some s) requested pages offset t f fnd).entities = [] ∧
      LogEvent.projNoMatchError requested ∈
        (projGenLoop (some s) requested pages offset t f fnd).logs := by
  intro pages
  induction pages with
  | nil =>
    intro offset t f fnd _ htf
    subst htf
    simp [projGenLoop, projSummary]
  | cons page rest ih =>
    intro offset t f fnd h htf
    subst htf
    have hpage : ∀ r ∈ page.records, strLower r.identifier ∉ s :=
      h page (List.mem_cons_self page rest)
    have hrest : ∀ pg ∈ rest, ∀ r ∈ pg.records, strLower r.identifier ∉ s :=
      fun pg hpg => h pg (List.mem_cons_of_mem page hpg)
    by_cases hc : page.totalCount ≤ offset + page.records.length ∨ page.records = []
    · simp [projGenLoop, hc, projFold_allskip s page.records hpage, projSummary]
    · have := ih (offset + 100) (t + page.records.length) (t + page.records.length) fnd
        hrest rfl
      simp [projGenLoop, hc, projFold_allskip s page.records hpage]
      exact this

theorem projGenLoop_none_logshape (requested : List String) :
    ∀ (pages : List (ListingPage ProjectRecord)) (offset t f : Nat)
      (fnd : List String),
      ∃ m, (projGenLoop none requested pages offset t f fnd).logs
        = [LogEvent.projCompletedNoFilter m] := by
  intro pages
  induction pages with
  | nil => intro offset t f fnd; exact ⟨t - f, by simp [projGenLoop, projSummary]⟩
  | cons page rest ih =>
    intro offset t f fnd
    by_cases hc : page.totalCount ≤ offset + page.records.length ∨ page.records = []
    · exact ⟨t + page.records.length - f, by
        simp [projGenLoop, hc, projFold_none, projSummary]⟩
    · rcases ih (offset + 100) (t + page.records.length) f fnd with ⟨m, hm⟩
      exact ⟨m, by simp [projGenLoop, hc, projFold_none, hm]⟩

/-- C3: when a project identifier filter is configured and no available
project matches it case-insensitively, the run yields zero project
entities and records the configuration-level error event
`projNoMatchError` — an event a run without a configured filter never
records, so the condition is surfaced distinctly from an ordinary empty
result. -/
theorem project_filter_zero_match_reports_error :
    ∀ (cfg : RedmineConfig) (pages : List (ListingPage ProjectRecord)),
      cfg.projectIdentifiers ≠ [] →
      (∀ page ∈ pages, ∀ r ∈ page.records,
        strLower r.identifier ∉ cfg.projectIdentifiers.map strLower) →
      (generateProjectEntities cfg pages).entities = [] ∧
      LogEvent.projNoMatchError cfg.projectIdentifiers ∈
        (generateProjectEntities cfg pages).logs ∧
      (∀ (cfg2 : RedmineConfig) (pages2 : List (ListingPage ProjectRecord))
        (req : List String), cfg2.projectIdentifiers = [] →
        LogEvent.projNoMatchError req ∉ (generateProjectEntities cfg2 pages2).logs) := by
  intro cfg pages hne hskip
  have hempty : cfg.projectIdentifiers.isEmpty = false := by
    cases hcs : cfg.projectIdentifiers with
    | nil => exact absurd hcs hne
    | cons a l => simp
  have hmain := projGenLoop_allskip (cfg.projectIdentifiers.map strLower)
    cfg.projectIdentifiers pages 0 0 0 [] hskip rfl
  refine ⟨?_, ?_, ?_⟩
  · rw [generateProjectEntities]
    simp only [hempty, Bool.false_eq_true, if_false]
    exact hmain.1
  · rw [generateProjectEntities]
    simp only [hempty, Bool.false_eq_true, if_false]
    exact hmain.2
  · intro cfg2 pages2 req hcfg2
    rw [generateProjectEntities]
    simp only [hcfg2, List.isEmpty_nil, if_pos]
    rcases projGenLoop_none_logshape [] pages2 0 0 0 [] with ⟨m, hm⟩
    rw [hm]
    simp

/-- C3, witness: filter `["Alpha"]` against one available project
`"beta"`: no entities, and the zero-match error event is recorded. -/
theorem project_filter_zero_match_witness :
    (({ projectIdentifiers := ["Alpha"] } : RedmineConfig).projectIdentifiers ≠ [] ∧
      (∀ page ∈ [({ records := [{ id := 1, identifier := "beta" }], totalCount := 1 } :
          ListingPage ProjectRecord)], ∀ r ∈ page.records,
        strLower r.identifier ∉
          (({ projectIdentifiers := ["Alpha"] } : RedmineConfig).projectIdentifiers.map
            strLower))) ∧
    (generateProjectEntities { projectIdentifiers := ["Alpha"] }
        [{ records := [{ id := 1, identifier := "beta" }], totalCount := 1 }]).entities
      = [] ∧
    LogEvent.projNoMatchError ["Alpha"] ∈
      (generateProjectEntities { projectIdentifiers := ["Alpha"] }
        [{ records := [{ id := 1, identifier := "beta" }], totalCount := 1 }]).logs := by
  have h := project_filter_zero_match_reports_error { projectIdentifiers := ["Alpha"] }
    [{ records := [{ id := 1, identifier := "beta" }], totalCount := 1 }]
    (by decide) (by decide)
  exact ⟨⟨by decide, by decide⟩, h.1, h.2.1⟩

/-! ### C9 — untitled wiki index entries are skipped silently -/

theorem wikiEntriesLoop_characterization (ident : String) (pid : Nat)
    (pname peid : String) (detail : String → Except Unit WikiRecord) :
    ∀ entries : List WikiIndexEntry,
      (wikiEntriesLoop ident pid pname peid detail entries).requests
        = (entries.filter (fun e => optStrTruthy e.title)).map
            (fun e => Request.wikiPage ident (e.title.getD "")) ∧
      (wikiEntriesLoop ident pid pname peid detail entries).entities
        = (entries.filter (fun e => optStrTruthy e.title)).filterMap
            (fun e =>
              match detail (e.title.getD "") with
              | .ok w => some (createWikiPageEntity w pid pname peid)
              | .error _ => none) ∧
      (wikiEntriesLoop ident pid pname peid detail entries).logs
        = (entries.filter (fun e => optStrTruthy e.title)).filterMap
            (fun e =>
              match detail (e.title.getD "") with
              | .ok _ => none
              | .error _ => some (LogEvent.wikiPageWarning ident (e.title.getD ""))) := by
  intro entries
  induction entries with
  | nil => exact ⟨rfl, rfl, rfl⟩
  | cons e rest ih =>
    by_cases ht : optStrTruthy e.title
    · cases hd : detail (e.title.getD "") with
      | ok w =>
        refine ⟨?_, ?_, ?_⟩ <;>
          simp [wikiEntriesLoop, ht, hd, List.filter_cons, ih.1, ih.2.1, ih.2.2]
      | error u =>
        refine ⟨?_, ?_, ?_⟩ <;>
          simp [wikiEntriesLoop, ht, hd, List.filter_cons, ih.1, ih.2.1, ih.2.2]
    · refine ⟨?_, ?_, ?_⟩ <;>
        simp [wikiEntriesLoop, ht, List.filter_cons, ih.1, ih.2.1, ih.2.2]

/-- C9: with wiki pages enabled, every wiki index entry whose `title` is
absent or empty is skipped silently — the run issues detail requests for
exactly the truthy-titled entries (in order), yields entities only for
those whose detail fetch succeeds, and records warnings only for the
truthy-titled entries whose detail fetch fails, so a skipped entry
produces no request, no entity and no log. -/
theorem wiki_untitled_entries_skipped :
    ∀ (cfg : RedmineConfig) (p : RedmineProjectEntity)
      (entries : List WikiIndexEntry) (detail : String → Except Unit WikiRecord),
      cfg.includeWikiPages = true →
      (generateWikiPageEntities cfg p (Except.ok entries) detail).requests
        = Request.wikiIndex p.identifier ::
            (entries.filter (fun e => optStrTruthy e.title)).map
              (fun e => Request.wikiPage p.identifier (e.title.getD "")) ∧
      (generateWikiPageEntities cfg p (Except.ok entries) detail).entities
        = (entries.filter (fun e => optStrTruthy e.title)).filterMap
            (fun e =>
              match detail (e.title.getD "") with
              | .ok w => some (createWikiPageEntity w p.projectId p.name p.entityId)
              | .error _ => none) ∧
      (generateWikiPageEntities cfg p (Except.ok entries) detail).logs
        = (entries.filter (fun e => optStrTruthy e.title)).filterMap
            (fun e =>
              match detail (e.title.getD "") with
              | .ok _ => none
              | .error _ => some (LogEvent.wikiPageWarning p.identifier (e.title.getD ""))) := by
  intro cfg p entries detail hflag
  have hch := wikiEntriesLoop_characterization p.identifier p.projectId p.name
    p.entityId detail entries
  refine ⟨?_, ?_, ?_⟩ <;>
    simp [generateWikiPageEntities, hflag, hch.1, hch.2.1, hch.2.2]

/-- C9, witness: index entries `[no title, empty title, "Home"]` produce
exactly one detail request and one entity, for "Home". -/
theorem wiki_untitled_entries_skipped_witness :
    defaultConfig.includeWikiPages = true ∧
    (generateWikiPageEntities defaultConfig sampleProject
        (Except.ok [{ title := none }, { title := some "" }, { title := some "Home" }])
        (fun t => Except.ok { title := some t })).requests
      = [Request.wikiIndex "test-project", Request.wikiPage "test-project" "Home"] ∧
    (generateWikiPageEntities defaultConfig sampleProject
        (Except.ok [{ title := none }, { title := some "" }, { title := some "Home" }])
        (fun t => Except.ok { title := some t })).entities.length = 1 ∧
    (generateWikiPageEntities defaultConfig sampleProject
        (Except.ok [{ title := none }, { title := some "" }, { title := some "Home" }])
        (fun t => Except.ok { title := some t })).logs = [] := by
  have h := wiki_untitled_entries_skipped defaultConfig sampleProject
    [{ title := none }, { title := some "" }, { title := some "Home" }]
    (fun t => Except.ok { title := some t }) rfl
  refine ⟨rfl, ?_, ?_, ?_⟩
  · rw [h.1]; decide
  · rw [h.2.1]; decide
  · rw [h.2.2]; decide

/-! ### C7 — per-issue enrichment failure is isolated -/

/-- The same server with every failing journal/attachment enrichment
fetch replaced by a successful empty response; nothing else changes. -/
def recoverEnrich (s : Server) : Server :=
  { s with
    journalFetch := fun i =>
      match s.journalFetch i with
      | .ok v => .ok v
      | .error _ => .ok []
    attachmentFetch := fun i =>
      match s.attachmentFetch i with
      | .ok v => .ok v
      | .error _ => .ok [] }

theorem journal_entities_recover (i : RedmineIssueEntity)
    (r : Except Unit (List JournalRecord)) :
    (generateJournalEntities i
        (match r with | .ok v => Except.ok v | .error _ => Except.ok [])).entities
      = (generateJournalEntities i r).entities := by
  cases r <;> simp [generateJournalEntities]

theorem attachment_entities_recover (cfg : RedmineConfig)
    (i : RedmineIssueEntity) (r : Except Unit (List AttachmentRecord)) :
    (generateAttachmentEntities cfg i
        (match r with | .ok v => Except.ok v | .error _ => Except.ok [])).entities
      = (generateAttachmentEntities cfg i r).entities := by
  cases r <;> by_cases hc : cfg.includeAttachments = false <;>
    simp [generateAttachmentEntities, hc]

theorem issueSubtree_entities_recover (cfg : RedmineConfig) (s : Server)
    (i : RedmineIssueEntity) :
    (issueSubtree cfg (recoverEnrich s) i).entities
      = (issueSubtree cfg s i).entities := by
  simp only [issueSubtree, recoverEnrich]
  rw [journal_entities_recover, attachment_entities_recover]

theorem projectSubtree_entities_recover (cfg : RedmineConfig) (s : Server)
    (p : RedmineProjectEntity) :
    (projectSubtree cfg (recoverEnrich s) p).entities
      = (projectSubtree cfg s p).entities := by
  simp only [projectSubtree, recoverEnrich, List.map_map]
  congr 1
  · congr 1
    congr 1
    apply List.map_congr_left
    intro i _
    show (issueSubtree cfg (recoverEnrich s) i).entities
      = (issueSubtree cfg s i).entities
    exact issueSubtree_entities_recover cfg s i

/-- C7: a failure while fetching one issue's journals or attachments is
caught and logged as a warning and never reaches the caller of
`generate_entities`: the full entity stream equals the stream of the
same run in which every such failing fetch is replaced by a successful
empty response — so the failing issue itself, all entities already
produced, and all later resources are unaffected — and per issue the
failing enrichment generator yields no entities and exactly the warning
log event. -/
theorem enrichment_failure_isolated :
    ∀ (cfg : RedmineConfig) (s : Server),
      (generateEntities cfg (recoverEnrich s)).entities
        = (generateEntities cfg s).entities ∧
      (∀ i : RedmineIssueEntity,
        (generateJournalEntities i (Except.error ())).entities = [] ∧
        (generateJournalEntities i (Except.error ())).logs
          = [LogEvent.journalFetchWarning i.issueId]) ∧
      (∀ (cfg2 : RedmineConfig) (i : RedmineIssueEntity),
        cfg2.includeAttachments = true →
        (generateAttachmentEntities cfg2 i (Except.error ())).entities = [] ∧
        (generateAttachmentEntities cfg2 i (Except.error ())).logs
          = [LogEvent.attachmentFetchWarning i.issueId]) := by
  intro cfg s
  refine ⟨?_, ?_, ?_⟩
  · simp only [generateEntities, recoverEnrich, List.map_map]
    congr 1
    apply List.map_congr_left
    intro p _
    show (projectSubtree cfg (recoverEnrich s) p).entities
      = (projectSubtree cfg s p).entities
    exact projectSubtree_entities_recover cfg s p
  · intro i
    exact ⟨rfl, rfl⟩
  · intro cfg2 i hflag
    constructor <;> simp [generateAttachmentEntities, hflag]

/-- A small concrete server on which every enrichment fetch fails. -/
def sampleServer : Server :=
  { projectPages := [{ records := [sampleProjectRecord], totalCount := 1 }]
    issuePages := fun _ => [{ records := [sampleIssue 7], totalCount := 1 }]
    journalFetch := fun _ => .error ()
    attachmentFetch := fun _ => .error ()
    wikiIndexFetch := fun _ => .ok []
    wikiPageFetch := fun _ _ => .error () }

/-- C7, witness: the theorem applied to a concrete server whose
enrichment fetches all fail, and to one concrete issue entity. -/
theorem enrichment_failure_isolated_witness :
    (generateEntities defaultConfig (recoverEnrich sampleServer)).entities
      = (generateEntities defaultConfig sampleServer).entities ∧
    (generateJournalEntities (createIssueEntity (sampleIssue 7) sampleProject)
        (Except.error ())).entities = [] ∧
    (generateJournalEntities (createIssueEntity (sampleIssue 7) sampleProject)
        (Except.error ())).logs = [LogEvent.journalFetchWarning 7] ∧
    (({ includeAttachments := true } : RedmineConfig).includeAttachments = true) ∧
    (generateAttachmentEntities { includeAttachments := true }
        (createIssueEntity (sampleIssue 7) sampleProject)
        (Except.error ())).entities = [] ∧
    (generateAttachmentEntities { includeAttachments := true }
        (createIssueEntity (sampleIssue 7) sampleProject)
        (Except.error ())).logs = [LogEvent.attachmentFetchWarning 7] := by
  have h := enrichment_failure_isolated defaultConfig sampleServer
  have hj := h.2.1 (createIssueEntity (sampleIssue 7) sampleProject)
  have ha := h.2.2 { includeAttachments := true }
    (createIssueEntity (sampleIssue 7) sampleProject) rfl
  exact ⟨h.1, hj.1, hj.2, rfl, ha.1, ha.2⟩

/-! ### C10 — enrichment breadcrumbs display "Issue #<id>" -/

/-- A journal or attachment stream element carries exactly one
breadcrumb, whose display name is the fixed string `"Issue #<id>"`
formed from the entity's own numeric parent-issue id and whose type tag
is `RedmineIssueEntity`; other element kinds are unconstrained. -/
def enrichmentCrumbOk : REntity → Bool
  | .journal j =>
    match j.breadcrumbs with
    | [b] => b.name == "Issue #" ++ natStr j.issueId && b.entityType == "RedmineIssueEntity"
    | _ => false
  | .attachment a =>
    match a.breadcrumbs, a.issueId with
    | [b], some iid => b.name == "Issue #" ++ natStr iid && b.entityType == "RedmineIssueEntity"
    | _, _ => false
  | _ => true

theorem journal_entity_shape (i : RedmineIssueEntity)
    (r : Except Unit (List JournalRecord)) (x : RedmineJournalEntity) :
    x ∈ (generateJournalEntities i r).entities →
    ∃ j, x = createJournalEntity j i.issueId i.entityId := by
  cases r with
  | error u => simp [generateJournalEntities]
  | ok js =>
    simp only [generateJournalEntities, List.mem_map, List.mem_filter]
    rintro ⟨j, _, rfl⟩
    exact ⟨j, rfl⟩

theorem attachment_entity_shape (cfg : RedmineConfig) (i : RedmineIssueEntity)
    (r : Except Unit (List AttachmentRecord)) (x : RedmineAttachmentEntity) :
    x ∈ (generateAttachmentEntities cfg i r).entities →
    ∃ a, x = createAttachmentEntity a i.issueId i.entityId := by
  intro hx
  by_cases hc : cfg.includeAttachments = false
  · simp [generateAttachmentEntities, hc] at hx
  · cases r with
    | error u => simp [generateAttachmentEntities, hc] at hx
    | ok as =>
      simp [generateAttachmentEntities, hc] at hx
      rcases hx with ⟨a, _, rfl⟩
      exact ⟨a, rfl⟩

/-- C10: in every full run, every journal entity and every attachment
entity in the output stream carries exactly one breadcrumb, and that
breadcrumb's display name is the fixed string `"Issue #<issue-id>"`
built from the parent issue's numeric id (with type tag
`RedmineIssueEntity`) — never the issue's subject or entity name. -/
theorem enrichment_breadcrumb_names_issue_id :
    ∀ (cfg : RedmineConfig) (s : Server),
      ((generateEntities cfg s).entities.all enrichmentCrumbOk) = true := by
  intro cfg s
  rw [List.all_eq_true]
  intro e he
  simp only [generateEntities, List.map_map, List.mem_flatten, List.mem_map,
    Function.comp] at he
  rcases he with ⟨l, ⟨p, hp, rfl⟩, hel⟩
  simp only [projectSubtree, List.map_map, List.mem_cons, List.mem_append,
    List.mem_flatten, List.mem_map, Function.comp] at hel
  rcases hel with rfl | ⟨⟨li, ⟨i, hi, rfl⟩, hei⟩ | ⟨w, hw, rfl⟩⟩
  · rfl
  · simp only [issueSubtree, List.mem_cons, List.mem_append, List.mem_map] at hei
    rcases hei with rfl | ⟨⟨x, hx, rfl⟩ | ⟨x, hx, rfl⟩⟩
    · rfl
    · rcases journal_entity_shape i (s.journalFetch i.issueId) x hx with ⟨j, rfl⟩
      simp [enrichmentCrumbOk, createJournalEntity]
    · rcases attachment_entity_shape cfg i (s.attachmentFetch i.issueId) x hx with ⟨a, rfl⟩
      simp [enrichmentCrumbOk, createAttachmentEntity]
  · rfl

/-! ### C6 — disabled switches make no network calls -/

theorem projGenLoop_requests_shape (fset : Option (List String))
    (requested : List String) :
    ∀ (pages : List (ListingPage ProjectRecord)) (offset t f : Nat)
      (fnd : List String) (r : Request),
      r ∈ (projGenLoop fset requested pages offset t f fnd).requests →
      ∃ o, r = Request.listProjects o 100 := by
  intro pages
  induction pages with
  | nil =>
    intro offset t f fnd r hr
    simp [projGenLoop] at hr
    exact ⟨offset, hr⟩
  | cons page rest ih =>
    intro offset t f fnd r hr
    by_cases hc : page.totalCount ≤ offset + page.records.length ∨ page.records = []
    · simp [projGenLoop, hc] at hr
      exact ⟨offset, hr⟩
    · simp [projGenLoop, hc] at hr
      rcases hr with rfl | hr
      · exact ⟨offset, rfl⟩
      · exact ih (offset + 100) _ _ _ r hr

theorem issueGenLoop_requests_shape (cfg : RedmineConfig)
    (p : RedmineProjectEntity) :
    ∀ (pages : List (ListingPage IssueRecord)) (offset : Nat) (r : Request),
      r ∈ (issueGenLoop cfg p pages offset).requests →
      ∃ o, r = Request.listIssues p.projectId (statusFilter cfg) o 100 := by
  intro pages
  induction pages with
  | nil =>
    intro offset r hr
    simp [issueGenLoop] at hr
    exact ⟨offset, hr⟩
  | cons page rest ih =>
    intro offset r hr
    by_cases hc : page.totalCount ≤ offset + page.records.length ∨ page.records = []
    · simp [issueGenLoop, hc] at hr
      exact ⟨offset, hr⟩
    · simp [issueGenLoop, hc] at hr
      rcases hr with rfl | hr
      · exact ⟨offset, rfl⟩
      · exact ih (offset + 100) r hr

theorem journal_requests (i : RedmineIssueEntity)
    (r : Except Unit (List JournalRecord)) :
    (generateJournalEntities i r).requests = [Request.issueJournals i.issueId] := by
  cases r <;> rfl

theorem attachment_requests_off (cfg : RedmineConfig) (i : RedmineIssueEntity)
    (r : Except Unit (List AttachmentRecord))
    (h : cfg.includeAttachments = false) :
    (generateAttachmentEntities cfg i r).requests = [] := by
  simp [generateAttachmentEntities, h]

theorem attachment_requests_shape (cfg : RedmineConfig) (i : RedmineIssueEntity)
    (r : Except Unit (List AttachmentRecord)) (q : Request) :
    q ∈ (generateAttachmentEntities cfg i r).requests →
    q = Request.issueAttachments i.issueId := by
  intro hq
  by_cases hc : cfg.includeAttachments = false
  · simp [generateAttachmentEntities, hc] at hq
  · cases r <;> simp [generateAttachmentEntities, hc] at hq <;> exact hq

theorem wiki_requests_off (cfg : RedmineConfig) (p : RedmineProjectEntity)
    (idx : Except WikiFetchErr (List WikiIndexEntry))
    (detail : String → Except Unit WikiRecord)
    (h : cfg.includeWikiPages = false) :
    (generateWikiPageEntities cfg p idx detail).requests = [] := by
  simp [generateWikiPageEntities, h]

theorem wiki_requests_not_attachment (cfg : RedmineConfig)
    (p : RedmineProjectEntity) (idx : Except WikiFetchErr (List WikiIndexEntry))
    (detail : String → Except Unit WikiRecord) (q : Request) :
    q ∈ (generateWikiPageEntities cfg p idx detail).requests →
    q.isAttachmentCall = false := by
  intro hq
  by_cases hw : cfg.includeWikiPages = false
  · rw [wiki_requests_off cfg p idx detail hw] at hq
    simp at hq
  · cases idx with
    | ok entries =>
      simp [generateWikiPageEntities, hw] at hq
      have hch := (wikiEntriesLoop_characterization p.identifier p.projectId p.name
        p.entityId detail entries).1
      rcases hq with rfl | hq
      · rfl
      · rw [hch] at hq
        simp only [List.mem_map] at hq
        rcases hq with ⟨e, _, rfl⟩
        rfl
    | error err =>
      cases err <;> simp [generateWikiPageEntities, hw] at hq <;> subst hq <;> rfl

/-- C6: with `include_wiki_pages` disabled the run performs zero
requests to wiki endpoints, and with `include_attachments` disabled it
performs zero requests to the attachment-enrichment endpoint — the
generators short-circuit before the network call, they do not merely
yield zero entities. -/
theorem disabled_switches_make_no_calls :
    ∀ (cfg : RedmineConfig) (s : Server),
      (cfg.includeWikiPages = false →
        ∀ r ∈ (generateEntities cfg s).requests, r.isWikiCall = false) ∧
      (cfg.includeAttachments = false →
        ∀ r ∈ (generateEntities cfg s).requests, r.isAttachmentCall = false) := by
  intro cfg s
  have hdecomp : ∀ r ∈ (generateEntities cfg s).requests,
      (∃ o, r = Request.listProjects o 100) ∨
      ∃ p, ((∃ o, r = Request.listIssues p.projectId (statusFilter cfg) o 100) ∨
        (∃ i : RedmineIssueEntity,
          r ∈ (generateJournalEntities i (s.journalFetch i.issueId)).requests ∨
          r ∈ (generateAttachmentEntities cfg i (s.attachmentFetch i.issueId)).requests) ∨
        r ∈ (generateWikiPageEntities cfg p (s.wikiIndexFetch p.identifier)
              (s.wikiPageFetch p.identifier)).requests) := by
    intro r hr
    simp only [generateEntities, List.map_map, List.mem_append, List.mem_flatten,
      List.mem_map, Function.comp] at hr
    rcases hr with hr | ⟨l, ⟨p, _, rfl⟩, hrl⟩
    · exact Or.inl (projGenLoop_requests_shape _ _ s.projectPages 0 0 0 [] r hr)
    · refine Or.inr ⟨p, ?_⟩
      simp only [projectSubtree, List.map_map, List.mem_append, List.mem_flatten,
        List.mem_map, Function.comp] at hrl
      rcases hrl with (hio | ⟨li, ⟨i, _, rfl⟩, hri⟩) | hwq
      · exact Or.inl (issueGenLoop_requests_shape cfg p (s.issuePages p.projectId) 0 r hio)
      · refine Or.inr (Or.inl ⟨i, ?_⟩)
        simp only [issueSubtree, List.mem_append] at hri
        exact hri
      · exact Or.inr (Or.inr hwq)
  constructor
  · intro hw r hr
    rcases hdecomp r hr with ⟨o, rfl⟩ | ⟨p, hp⟩
    · rfl
    · rcases hp with ⟨o, rfl⟩ | ⟨⟨i, hji | hai⟩ | hwq⟩
      · rfl
      · rw [journal_requests] at hji
        simp at hji
        subst hji
        rfl
      · rw [attachment_requests_shape cfg i (s.attachmentFetch i.issueId) r hai]
        rfl
      · rw [wiki_requests_off cfg p (s.wikiIndexFetch p.identifier)
          (s.wikiPageFetch p.identifier) hw] at hwq
        simp at hwq
  · intro ha r hr
    rcases hdecomp r hr with ⟨o, rfl⟩ | ⟨p, hp⟩
    · rfl
    · rcases hp with ⟨o, rfl⟩ | ⟨⟨i, hji | hai⟩ | hwq⟩
      · rfl
      · rw [journal_requests] at hji
        simp at hji
        subst hji
        rfl
      · rw [attachment_requests_off cfg i (s.attachmentFetch i.issueId) ha] at hai
        simp at hai
      · exact wiki_requests_not_attachment cfg p (s.wikiIndexFetch p.identifier)
          (s.wikiPageFetch p.identifier) r hwq

/-- A server used to witness C6: it would offer wiki pages and
attachments if asked. -/
def richServer : Server :=
  { projectPages := [{ records := [sampleProjectRecord], totalCount := 1 }]
    issuePages := fun _ => [{ records := [sampleIssue 7], totalCount := 1 }]
    journalFetch := fun _ => .ok [{ id := 1, notes := some "a comment" }]
    attachmentFetch := fun _ => .ok [{ id := 2, filename := some "f.txt" }]
    wikiIndexFetch := fun _ => .ok [{ title := some "Home" }]
    wikiPageFetch := fun _ t => .ok { title := some t } }

/-- C6, witness: with both switches off, the concrete run issues no wiki
request and no attachment request. -/
theorem disabled_switches_make_no_calls_witness :
    (({ includeWikiPages := false } : RedmineConfig).includeWikiPages = false ∧
      ∀ r ∈ (generateEntities { includeWikiPages := false } richServer).requests,
        r.isWikiCall = false) ∧
    (defaultConfig.includeAttachments = false ∧
      ∀ r ∈ (generateEntities defaultConfig richServer).requests,
        r.isAttachmentCall = false) :=
  ⟨⟨rfl, (disabled_switches_make_no_calls { includeWikiPages := false } richServer).1 rfl⟩,
   ⟨rfl, (disabled_switches_make_no_calls defaultConfig richServer).2 rfl⟩⟩

/-! ### C5 — breadcrumbs only reference earlier stream elements -/

/-- The id pool after a list of entities has been yielded on top of
`avail`. -/
def availAfter (l : List REntity) (avail : List String) : List String :=
  l.foldl (fun a e => e.entityId :: a) avail

theorem contains_of_mem (l : List String) (x : String) (h : x ∈ l) :
    l.contains x = true := by
  simpa using h

theorem mem_availAfter (l : List REntity) :
    ∀ (avail : List String) (x : String), x ∈ avail → x ∈ availAfter l avail := by
  induction l with
  | nil => intro avail x h; exact h
  | cons e rest ih =>
    intro avail x h
    exact ih (e.entityId :: avail) x (List.mem_cons_of_mem _ h)

theorem crumbsOk_append :
    ∀ (l1 l2 : List REntity) (avail : List String),
      crumbsOk avail (l1 ++ l2)
        = (crumbsOk avail l1 && crumbsOk (availAfter l1 avail) l2) := by
  intro l1
  induction l1 with
  | nil => intro l2 avail; simp [crumbsOk, availAfter]
  | cons e rest ih =>
    intro l2 avail
    simp only [List.cons_append, crumbsOk, List.append_eq]
    rw [ih l2 (e.entityId :: avail)]
    simp only [availAfter, List.foldl_cons, Bool.and_assoc]

theorem crumbsOk_of_all :
    ∀ (l : List REntity) (avail : List String),
      (∀ e ∈ l, ∀ b ∈ e.crumbs, b.entityId ∈ avail) → crumbsOk avail l = true := by
  intro l
  induction l with
  | nil => intro avail _; rfl
  | cons e rest ih =>
    intro avail h
    simp only [crumbsOk, Bool.and_eq_true]
    constructor
    · rw [List.all_eq_true]
      intro b hb
      exact contains_of_mem avail b.entityId (h e (List.mem_cons_self e rest) b hb)
    · exact ih (e.entityId :: avail)
        (fun x hx b hb =>
          List.mem_cons_of_mem _ (h x (List.mem_cons_of_mem e hx) b hb))

theorem crumbsOk_flatten_inv (c : String) :
    ∀ (blocks : List (List REntity)) (avail : List String),
      (∀ b ∈ blocks, ∀ av : List String, c ∈ av → crumbsOk av b = true) →
      c ∈ avail → crumbsOk avail blocks.flatten = true := by
  intro blocks
  induction blocks with
  | nil => intro avail _ _; rfl
  | cons b bs ih =>
    intro avail h hc
    rw [List.flatten_cons, crumbsOk_append]
    simp only [Bool.and_eq_true]
    exact ⟨h b (List.mem_cons_self b bs) avail hc,
      ih (availAfter b avail)
        (fun x hx => h x (List.mem_cons_of_mem b hx))
        (mem_availAfter b avail c hc)⟩

theorem crumbsOk_flatten_all :
    ∀ (blocks : List (List REntity)) (avail : List String),
      (∀ b ∈ blocks, ∀ av : List String, crumbsOk av b = true) →
      crumbsOk avail blocks.flatten = true := by
  intro blocks
  induction blocks with
  | nil => intro avail _; rfl
  | cons b bs ih =>
    intro avail h
    rw [List.flatten_cons, crumbsOk_append]
    simp only [Bool.and_eq_true]
    exact ⟨h b (List.mem_cons_self b bs) avail,
      ih (availAfter b avail) (fun x hx => h x (List.mem_cons_of_mem b hx))⟩

theorem issue_entities_crumbs (cfg : RedmineConfig) (p : RedmineProjectEntity)
    (pages : List (ListingPage IssueRecord)) :
    ∀ i ∈ (generateIssueEntities cfg p pages).entities,
      i.breadcrumbs
        = [{ entityId := p.entityId, name := p.name,
             entityType := "RedmineProjectEntity" }] := by
  intro i hi
  rw [generateIssueEntities, issueGenLoop_entities_eq] at hi
  rcases List.mem_map.mp hi with ⟨r, _, rfl⟩
  rfl

theorem wiki_entities_crumbs (cfg : RedmineConfig) (p : RedmineProjectEntity)
    (idx : Except WikiFetchErr (List WikiIndexEntry))
    (detail : String → Except Unit WikiRecord) :
    ∀ w ∈ (generateWikiPageEntities cfg p idx detail).entities,
      w.breadcrumbs
        = [{ entityId := p.entityId, name := p.name,
             entityType := "RedmineProjectEntity" }] := by
  intro w hw
  by_cases hflag : cfg.includeWikiPages = false
  · simp [generateWikiPageEntities, hflag] at hw
  · cases idx with
    | ok entries =>
      simp only [generateWikiPageEntities, hflag, if_false] at hw
      rw [(wikiEntriesLoop_characterization p.identifier p.projectId p.name
        p.entityId detail entries).2.1] at hw
      rcases List.mem_filterMap.mp hw with ⟨e, _, he⟩
      cases hd : detail (e.title.getD "") with
      | ok rec2 =>
        rw [hd] at he
        cases he
        rfl
      | error u => rw [hd] at he; cases he
    | error err =>
      cases err <;> simp [generateWikiPageEntities, hflag] at hw

theorem journal_entities_crumbs (i : RedmineIssueEntity)
    (r : Except Unit (List JournalRecord)) :
    ∀ x ∈ (generateJournalEntities i r).entities,
      x.breadcrumbs
        = [{ entityId := i.entityId, name := "Issue #" ++ natStr i.issueId,
             entityType := "RedmineIssueEntity" }] := by
  intro x hx
  rcases journal_entity_shape i r x hx with ⟨j, rfl⟩
  rfl

theorem attachment_entities_crumbs (cfg : RedmineConfig)
    (i : RedmineIssueEntity) (r : Except Unit (List AttachmentRecord)) :
    ∀ x ∈ (generateAttachmentEntities cfg i r).entities,
      x.breadcrumbs
        = [{ entityId := i.entityId, name := "Issue #" ++ natStr i.issueId,
             entityType := "RedmineIssueEntity" }] := by
  intro x hx
  rcases attachment_entity_shape cfg i r x hx with ⟨a, rfl⟩
  rfl

theorem issueSubtree_crumbsOk (cfg : RedmineConfig) (s : Server)
    (i : RedmineIssueEntity) (avail : List String)
    (h : ∀ b ∈ i.breadcrumbs, b.entityId ∈ avail) :
    crumbsOk avail (issueSubtree cfg s i).entities = true := by
  simp only [issueSubtree, crumbsOk, Bool.and_eq_true]
  constructor
  · rw [List.all_eq_true]
    intro b hb
    simp only [REntity.crumbs] at hb
    exact contains_of_mem avail b.entityId (h b hb)
  · apply crumbsOk_of_all
    intro e he b hb
    simp only [List.mem_append, List.mem_map] at he
    rcases he with ⟨x, hx, rfl⟩ | ⟨x, hx, rfl⟩
    · simp only [REntity.crumbs] at hb
      rw [journal_entities_crumbs i (s.journalFetch i.issueId) x hx] at hb
      simp only [List.mem_singleton] at hb
      subst hb
      exact List.mem_cons_self _ _
    · simp only [REntity.crumbs] at hb
      rw [attachment_entities_crumbs cfg i (s.attachmentFetch i.issueId) x hx] at hb
      simp only [List.mem_singleton] at hb
      subst hb
      exact List.mem_cons_self _ _

theorem projFold_entities_mem (fset : Option (List String)) :
    ∀ (rs : List ProjectRecord) (es : List RedmineProjectEntity) (t f : Nat)
      (fnd : List String) (x : RedmineProjectEntity),
      x ∈ (rs.foldl (projRecordStep fset) (es, t, f, fnd)).1 →
      x ∈ es ∨ ∃ r, x = createProjectEntity r := by
  intro rs
  induction rs with
  | nil => intro es t f fnd x hx; exact Or.inl hx
  | cons r rs ih =>
    intro es t f fnd x hx
    rw [List.foldl_cons] at hx
    cases fset with
    | none =>
      rcases ih _ _ _ _ x hx with hes | hcr
      · rcases List.mem_append.mp hes with h | h
        · exact Or.inl h
        · simp only [List.mem_singleton] at h
          exact Or.inr ⟨r, h⟩
      · exact Or.inr hcr
    | some s =>
      by_cases hmem : strLower r.identifier ∉ s
      · rw [show projRecordStep (some s) (es, t, f, fnd) r = (es, t + 1, f + 1, fnd) by
          simp [projRecordStep, hmem]] at hx
        exact ih _ _ _ _ x hx
      · rw [show projRecordStep (some s) (es, t, f, fnd) r
            = (es ++ [createProjectEntity r], t + 1, f,
               if strLower r.identifier ∈ fnd then fnd
               else fnd ++ [strLower r.identifier]) by
          simp [projRecordStep, hmem]] at hx
        rcases ih _ _ _ _ x hx with hes | hcr
        · rcases List.mem_append.mp hes with h | h
          · exact Or.inl h
          · simp only [List.mem_singleton] at h
            exact Or.inr ⟨r, h⟩
        · exact hcr.elim (fun r2 h2 => Or.inr ⟨r2, h2⟩)

theorem projGenLoop_entities_crumbs (fset : Option (List String))
    (requested : List String) :
    ∀ (pages : List (ListingPage ProjectRecord)) (offset t f : Nat)
      (fnd : List String) (x : RedmineProjectEntity),
      x ∈ (projGenLoop fset requested pages offset t f fnd).entities →
      x.breadcrumbs = [] := by
  intro pages
  induction pages with
  | nil => intro offset t f fnd x hx; simp [projGenLoop] at hx
  | cons page rest ih =>
    intro offset t f fnd x hx
    have hstep : ∀ hmem : x ∈ (page.records.foldl (projRecordStep fset)
        ([], t, f, fnd)).1, x.breadcrumbs = [] := by
      intro hmem
      rcases projFold_entities_mem fset page.records [] t f fnd x hmem with h | ⟨r, rfl⟩
      · simp at h
      · rfl
    by_cases hc : offset + page.records.length ≥ page.totalCount ∨
        page.records.length = 0
    · simp only [projGenLoop] at hx
      rw [if_pos hc] at hx
      exact hstep hx
    · simp only [projGenLoop] at hx
      rw [if_neg hc] at hx
      rcases List.mem_append.mp hx with hx | hx
      · exact hstep hx
      · exact ih _ _ _ _ x hx

theorem projectSubtree_crumbsOk (cfg : RedmineConfig) (s : Server)
    (p : RedmineProjectEntity) (avail : List String)
    (hp : p.breadcrumbs = []) :
    crumbsOk avail (projectSubtree cfg s p).entities = true := by
  simp only [projectSubtree, crumbsOk, Bool.and_eq_true, List.map_map]
  constructor
  · rw [List.all_eq_true]
    intro b hb
    simp only [REntity.crumbs] at hb
    rw [hp] at hb
    simp at hb
  · rw [crumbsOk_append]
    simp only [Bool.and_eq_true]
    constructor
    · apply crumbsOk_flatten_inv p.entityId
      · intro b hb av hav
        rcases List.mem_map.mp hb with ⟨i, hi, rfl⟩
        apply issueSubtree_crumbsOk
        intro bc hbc
        rw [issue_entities_crumbs cfg p (s.issuePages p.projectId) i hi] at hbc
        simp only [List.mem_singleton] at hbc
        subst hbc
        exact hav
      · exact List.mem_cons_self _ _
    · apply crumbsOk_of_all
      intro e he b hb
      rcases List.mem_map.mp he with ⟨w, hw, rfl⟩
      simp only [REntity.crumbs] at hb
      rw [wiki_entities_crumbs cfg p (s.wikiIndexFetch p.identifier)
        (s.wikiPageFetch p.identifier) w hw] at hb
      simp only [List.mem_singleton] at hb
      subst hb
      exact mem_availAfter _ _ _ (List.mem_cons_self _ _)

/-- C5: for every server response assignment, the stream produced by
`generate_entities` — which walks depth-first: each project, then every
issue of that project each followed immediately by its journals and then
its attachments, then that project's wiki pages, then the next project
(the shape of `generateEntities`) — satisfies the parent-before-child
guarantee: every breadcrumb of every entity names the `entity_id` of an
entity yielded strictly earlier in the same stream (`crumbsOk []`). -/
theorem entities_breadcrumbs_reference_earlier :
    ∀ (cfg : RedmineConfig) (s : Server),
      crumbsOk [] (generateEntities cfg s).entities = true := by
  intro cfg s
  simp only [generateEntities, List.map_map]
  apply crumbsOk_flatten_all
  intro b hb av
  rcases List.mem_map.mp hb with ⟨p, hp, rfl⟩
  apply projectSubtree_crumbsOk
  simp only [generateProjectEntities] at hp
  exact projGenLoop_entities_crumbs _ _ s.projectPages 0 0 0 [] p hp
